import Mathlib

/-!
Shallow embedding of `src/generate_unittest.py`: the Azure OpenAI completion
client (`call_azure_openai`) and the validation-and-repair loop
(`validate_and_log_tests`), together with proofs of the specified properties.

External effects are modelled by oracles:
  * test execution (`subprocess.run`) is an oracle `Nat → ExecResult` giving
    the outcome of the i-th execution of an artifact (0-indexed, like the
    Python loop variable `attempt`);
  * the HTTP backend (`requests.post`) is an oracle `RequestBody → BackendResponse`
    (per repair attempt, `Nat → RequestBody → BackendResponse`), so that a run
    is a deterministic function of the environment.
Float generation parameters are modelled as rationals; `0.4 + 0.1 * attempt`
with `attempt ∈ {0, 1, 2}` involves no rounding subtlety relevant to the claims.
-/

namespace GenUnittest

/-- Configuration constant `MAX_ITERATIONS = 3` from the source. -/
def MAX_ITERATIONS : Nat := 3

/-- The assertion-failure marker used by the classifier: the Python code tests
`"AssertionError" in error_message`. -/
def ASSERTION_MARKER : String := "AssertionError"

/-- Does the character list start with the given pattern? (Embeds the prefix
check underlying Python substring containment.) -/
def startsWithChars : List Char → List Char → Bool
  | _, [] => true
  | [], _ :: _ => false
  | a :: as, b :: bs => a == b && startsWithChars as bs

/-- Does the pattern occur contiguously in the list? Naive scan, equivalent to
Python `pat in s`. -/
def hasSubstrChars (pat : List Char) : List Char → Bool
  | [] => startsWithChars [] pat
  | c :: rest => startsWithChars (c :: rest) pat || hasSubstrChars pat rest

/-- Embeds Python `pat in s` on strings. -/
def containsSubstr (s pat : String) : Bool :=
  hasSubstrChars pat.data s.data

/-- Result of one `subprocess.run` of a test artifact: exit code and captured
standard error. Models the `ExecutionOutcome` of the spec. -/
structure ExecResult where
  returncode : Int
  stderr : String
deriving Repr, DecidableEq

/-- One entry of the failure ledger: the dictionaries appended to
`failure_log["test_issues"]` / `failure_log["code_issues"]`. -/
structure FailureRecord where
  test_file : String
  error : String
  attempt : Nat
deriving Repr, DecidableEq

/-- The in-memory `failure_log` dictionary with its two lists. -/
structure FailureLog where
  test_issues : List FailureRecord
  code_issues : List FailureRecord
deriving Repr, DecidableEq

/-- The JSON payload `data` assembled inside `call_azure_openai` from its
arguments (the `messages` list carries the prompt; the deployment name only
selects the URL and is dropped here). -/
structure RequestBody where
  prompt : String
  max_tokens : Nat
  temperature : ℚ
  frequency_penalty : ℚ
  presence_penalty : ℚ
deriving Repr, DecidableEq

/-- An HTTP response from the backend: status code, raw body text
(`response.text`), and the extracted
`response.json()["choices"][0]["message"]["content"]` for success-shaped
bodies. -/
structure BackendResponse where
  status_code : Nat
  body_text : String
  message_content : String
deriving Repr, DecidableEq

/-- The error raised by `call_azure_openai` on a non-200 response: the Python
`Exception` message interpolates the status code and body; we keep the code as
a separate field alongside the formatted message. -/
structure ServiceError where
  status_code : Nat
  message : String
deriving Repr, DecidableEq

/-- The message of the exception raised on a failing call:
`f"Azure OpenAI API call failed: {response.status_code} - {response.text}"`. -/
def apiFailMessage (response : BackendResponse) : String :=
  "Azure OpenAI API call failed: " ++ toString response.status_code ++ " - " ++
    response.body_text

/-- Embeds `call_azure_openai`: posts `data` to the backend; on status 200
returns the generated text, otherwise raises (returns `.error`) carrying the
status code and message. The function makes exactly one backend call and has
no retry logic. -/
def call_azure_openai (backend : RequestBody → BackendResponse)
    (data : RequestBody) : Except ServiceError String :=
  let response := backend data
  if response.status_code = 200 then
    .ok response.message_content
  else
    .error { status_code := response.status_code
             message := apiFailMessage response }

/-- The repair prompt built at lines 172-178 of the source from the error text
and the current artifact content. Its exact wording is out of scope (spec §1
non-goals); only the data it carries is modelled. -/
def repairPrompt (error content : String) : String :=
  error ++ "\n" ++ content

/-- Base sampling temperature `0.4` used by both the synthesizer and the
repair call. -/
def baseTemperature : ℚ := 4/10

/-- The request sent by the repair call at the given 0-indexed `attempt`:
`max_tokens=700`, `temperature=0.4 + (0.1 * attempt)`; the frequency and
presence penalties are not passed at the call site, so they take the defaults
`0.0` from the signature of `call_azure_openai`. -/
def repairRequest (attempt : Nat) (error content : String) : RequestBody :=
  { prompt := repairPrompt error content
    max_tokens := 700
    temperature := baseTemperature + (1/10) * (attempt : ℚ)
    frequency_penalty := 0
    presence_penalty := 0 }

/-- Terminal state of one artifact in the validation loop (spec §4.3). -/
inductive ArtifactState where
  | Passed
  | CodeIssue
  | Exhausted
deriving Repr, DecidableEq

/-- Observable trace of processing one artifact through the
`for attempt in range(MAX_ITERATIONS)` loop: the ledger records appended, the
regeneration requests sent, the contents written over the artifact file, the
number of executions, the final file content, and the outcome (`.error e`
models the exception from a failed completion call propagating out). -/
structure ArtifactRun where
  test_issues : List FailureRecord
  code_issues : List FailureRecord
  calls : List RequestBody
  overwrites : List String
  executions : Nat
  content : String
  outcome : Except ServiceError ArtifactState
deriving Repr

/-- Embeds the body of the per-artifact loop of `validate_and_log_tests`
(lines 143-188). `attempt` is the 0-indexed Python loop variable; `fuel` is
the number of remaining iterations (initially `MAX_ITERATIONS`); `content` is
the current on-disk text of the artifact. Control flow, in source order:
exit code 0 breaks as `Passed`; an `AssertionError` substring in stderr logs a
`code_issues` record and breaks; otherwise a `test_issues` record is logged,
a repair is requested from `call_azure_openai`, and the artifact is
overwritten before the next iteration. Exhausting the range ends in
`Exhausted`. -/
def artifactLoopAux (execOut : Nat → ExecResult)
    (backend : Nat → RequestBody → BackendResponse) (path : String) :
    Nat → Nat → String → ArtifactRun
  | _, 0, content =>
    { test_issues := [], code_issues := [], calls := [], overwrites := []
      executions := 0, content := content, outcome := .ok .Exhausted }
  | attempt, fuel + 1, content =>
    let result := execOut attempt
    if result.returncode = 0 then
      { test_issues := [], code_issues := [], calls := [], overwrites := []
        executions := 1, content := content, outcome := .ok .Passed }
    else if containsSubstr result.stderr ASSERTION_MARKER then
      { test_issues := []
        code_issues := [{ test_file := path, error := result.stderr
                          attempt := attempt + 1 }]
        calls := [], overwrites := []
        executions := 1, content := content, outcome := .ok .CodeIssue }
    else
      let record : FailureRecord :=
        { test_file := path, error := result.stderr, attempt := attempt + 1 }
      let req := repairRequest attempt result.stderr content
      match call_azure_openai (backend attempt) req with
      | .error e =>
        { test_issues := [record], code_issues := [], calls := [req]
          overwrites := [], executions := 1, content := content
          outcome := .error e }
      | .ok fixed =>
        let rest := artifactLoopAux execOut backend path (attempt + 1) fuel fixed
        { test_issues := record :: rest.test_issues
          code_issues := rest.code_issues
          calls := req :: rest.calls
          overwrites := fixed :: rest.overwrites
          executions := rest.executions + 1
          content := rest.content
          outcome := rest.outcome }

/-- Full run of the loop on one artifact, starting at attempt 0 with
`MAX_ITERATIONS` iterations available. -/
def runArtifact (execOut : Nat → ExecResult)
    (backend : Nat → RequestBody → BackendResponse)
    (path content : String) : ArtifactRun :=
  artifactLoopAux execOut backend path 0 MAX_ITERATIONS content

/-- One artifact to validate: its path and current content. -/
structure Artifact where
  path : String
  content : String
deriving Repr, DecidableEq

/-- Folds the per-artifact loop over the artifact list, accumulating the
shared `failure_log`; a `ServiceError` from a completion call aborts the whole
fold (the Python exception propagates out of `validate_and_log_tests`). -/
def runArtifactsAux (execOut : String → Nat → ExecResult)
    (backend : String → Nat → RequestBody → BackendResponse) :
    List Artifact → FailureLog → FailureLog × Option ServiceError
  | [], log => (log, none)
  | a :: rest, log =>
    let r := artifactLoopAux (execOut a.path) (backend a.path) a.path 0
      MAX_ITERATIONS a.content
    let log' : FailureLog :=
      { test_issues := log.test_issues ++ r.test_issues
        code_issues := log.code_issues ++ r.code_issues }
    match r.outcome with
    | .error e => (log', some e)
    | .ok _ => runArtifactsAux execOut backend rest log'

/-- Observable result of `validate_and_log_tests`: the in-memory ledger at the
moment the function returns or raises, the content written to `LOG_FILE`
(`none` when the final `json.dump` was never reached), and the propagated
error if any. -/
structure ValidationRun where
  failure_log : FailureLog
  ledger_file : Option FailureLog
  err : Option ServiceError
deriving Repr, DecidableEq

/-- Embeds `validate_and_log_tests` (lines 134-198): process every artifact,
then persist the ledger to `LOG_FILE` once at the end. An exception from a
completion call propagates before the ledger write, so `ledger_file = none`
in that case. -/
def validate_and_log_tests (execOut : String → Nat → ExecResult)
    (backend : String → Nat → RequestBody → BackendResponse)
    (artifacts : List Artifact) : ValidationRun :=
  let res := runArtifactsAux execOut backend artifacts ⟨[], []⟩
  match res.2 with
  | some e => { failure_log := res.1, ledger_file := none, err := some e }
  | none => { failure_log := res.1, ledger_file := some res.1, err := none }

/-! Specification-side helpers used only in theorem statements. -/

/-- List of `n` consecutive naturals starting at `s`. -/
def consecFrom (s : Nat) : Nat → List Nat
  | 0 => []
  | n + 1 => s :: consecFrom (s + 1) n

/-! Concrete oracles for scenario runs and witnesses. -/

/-- Execution oracle: every attempt fails with a non-assertion error. -/
def exAllFail : Nat → ExecResult :=
  fun _ => { returncode := 1, stderr := "boom" }

/-- Execution oracle: every attempt fails with an assertion failure. -/
def exAssertFirst : Nat → ExecResult :=
  fun _ => { returncode := 1, stderr := "AssertionError: 5 != 6" }

/-- Execution oracle: attempt 0 fails with a non-assertion error, all later
attempts pass. -/
def exFailOncePass : Nat → ExecResult :=
  fun i => if i = 0 then { returncode := 1, stderr := "boom" }
    else { returncode := 0, stderr := "" }

/-- Backend oracle answering every request with status 200 and the text
`fix<attempt>`. -/
def bOk : Nat → RequestBody → BackendResponse :=
  fun i _ => { status_code := 200, body_text := ""
               message_content := "fix" ++ toString i }

/-- The completion texts returned by `bOk`, indexed by 0-based attempt. -/
def fixTextF : Nat → String := fun i => "fix" ++ toString i

/-- Backend oracle failing every request with status 500 and body `oops`. -/
def bBad : Nat → RequestBody → BackendResponse :=
  fun _ _ => { status_code := 500, body_text := "oops", message_content := "" }

theorem consecFrom_length : ∀ n s, (consecFrom s n).length = n := by
  intro n
  induction n with
  | zero => intro s; rfl
  | succ n ih => intro s; simp [consecFrom, ih]

theorem consecFrom_le {x : Nat} : ∀ n s, x ∈ consecFrom s n → s ≤ x := by
  intro n
  induction n with
  | zero => intro s h; simp [consecFrom] at h
  | succ n ih =>
    intro s h
    rcases List.mem_cons.mp h with h | h
    · omega
    · have := ih (s + 1) h
      omega

theorem consecFrom_pairwise : ∀ n s, (consecFrom s n).Pairwise (· < ·) := by
  intro n
  induction n with
  | zero => intro s; simp [consecFrom]
  | succ n ih =>
    intro s
    refine List.Pairwise.cons ?_ (ih (s + 1))
    intro x hx
    have := consecFrom_le n (s + 1) hx
    omega

/-! Structural lemmas about the per-artifact loop. -/

/-- An aborted run (propagated `ServiceError`) has already appended at least
one `test_issues` record: the record is appended before the completion call is
made. -/
theorem run_error_nonempty (execOut : Nat → ExecResult)
    (backend : Nat → RequestBody → BackendResponse) (path : String) :
    ∀ fuel attempt content e,
      (artifactLoopAux execOut backend path attempt fuel content).outcome =
        .error e →
      (artifactLoopAux execOut backend path attempt fuel content).test_issues
        ≠ [] := by
  intro fuel
  induction fuel with
  | zero => intro attempt content e h; simp [artifactLoopAux] at h
  | succ fuel ih =>
    intro attempt content e
    simp only [artifactLoopAux]
    split
    · intro h; simp at h
    · split
      · intro h; simp at h
      · split
        · intro _; simp
        · intro _; simp

/-- Budget and code-issue structure of any run: at most `fuel` executions,
at most one `code_issues` record, and a `code_issues` record is appended only
at the very last execution performed (so it ends the artifact's processing). -/
theorem run_bounds (execOut : Nat → ExecResult)
    (backend : Nat → RequestBody → BackendResponse) (path : String) :
    ∀ fuel attempt content,
      (artifactLoopAux execOut backend path attempt fuel content).executions
        ≤ fuel ∧
      (artifactLoopAux execOut backend path attempt fuel
        content).code_issues.length ≤ 1 ∧
      ∀ rec ∈ (artifactLoopAux execOut backend path attempt fuel
          content).code_issues,
        rec.attempt = attempt +
          (artifactLoopAux execOut backend path attempt fuel
            content).executions := by
  intro fuel
  induction fuel with
  | zero => intro attempt content; simp [artifactLoopAux]
  | succ fuel ih =>
    intro attempt content
    simp only [artifactLoopAux]
    split
    · simp
    · split
      · simp
      · split
        · simp
        · rcases ih (attempt + 1) _ with ⟨h1, h2, h3⟩
          refine ⟨by simpa using Nat.add_le_add_right h1 1, by simpa using h2, ?_⟩
          intro rec hrec
          have := h3 rec (by simpa using hrec)
          simp only
          omega

/-- The attempt numbers of the records appended for one artifact, in append
order (all `test_issues` records, then the `code_issues` record if any), form
a consecutive run starting at `attempt + 1`. -/
theorem run_attempts (execOut : Nat → ExecResult)
    (backend : Nat → RequestBody → BackendResponse) (path : String) :
    ∀ fuel attempt content, ∃ n,
      (((artifactLoopAux execOut backend path attempt fuel content).test_issues
          ++ (artifactLoopAux execOut backend path attempt fuel
            content).code_issues).map FailureRecord.attempt) =
        consecFrom (attempt + 1) n := by
  intro fuel
  induction fuel with
  | zero => intro attempt content; exact ⟨0, by simp [artifactLoopAux, consecFrom]⟩
  | succ fuel ih =>
    intro attempt content
    simp only [artifactLoopAux]
    split
    · exact ⟨0, by simp [consecFrom]⟩
    · split
      · exact ⟨1, by simp [consecFrom]⟩
      · split
        · exact ⟨1, by simp [consecFrom]⟩
        · rcases ih (attempt + 1) _ with ⟨n, hn⟩
          refine ⟨n + 1, ?_⟩
          simp only [consecFrom]
          simpa using hn

/-- Complete characterization of a run in which every execution fails without
the assertion marker and every completion call succeeds: one `test_issues`
record per attempt with consecutive attempt numbers, no `code_issues` record,
one regeneration call and one overwrite per attempt, and an `Exhausted`
outcome with the last regeneration's text on disk. -/
theorem run_all_fail (execOut : Nat → ExecResult)
    (backend : Nat → RequestBody → BackendResponse) (path : String)
    (fixText : Nat → String)
    (hok : ∀ i req, call_azure_openai (backend i) req = .ok (fixText i)) :
    ∀ fuel attempt content,
      (∀ i, i < fuel → (execOut (attempt + i)).returncode ≠ 0) →
      (∀ i, i < fuel →
        containsSubstr (execOut (attempt + i)).stderr ASSERTION_MARKER
          = false) →
      (artifactLoopAux execOut backend path attempt fuel
          content).test_issues.map FailureRecord.attempt =
        consecFrom (attempt + 1) fuel ∧
      (∀ rec ∈ (artifactLoopAux execOut backend path attempt fuel
          content).test_issues, rec.test_file = path) ∧
      (artifactLoopAux execOut backend path attempt fuel content).code_issues
        = [] ∧
      (artifactLoopAux execOut backend path attempt fuel content).calls.length
        = fuel ∧
      (artifactLoopAux execOut backend path attempt fuel
        content).overwrites.length = fuel ∧
      (artifactLoopAux execOut backend path attempt fuel content).executions
        = fuel ∧
      (artifactLoopAux execOut backend path attempt fuel content).outcome
        = .ok .Exhausted ∧
      (artifactLoopAux execOut backend path attempt fuel content).content
        = (if fuel = 0 then content else fixText (attempt + fuel - 1)) := by
  intro fuel
  induction fuel with
  | zero => intro attempt content _ _; simp [artifactLoopAux, consecFrom]
  | succ fuel ih =>
    intro attempt content hfail hmark
    have h0 : (execOut attempt).returncode ≠ 0 := by
      simpa using hfail 0 (Nat.succ_pos fuel)
    have m0 : containsSubstr (execOut attempt).stderr ASSERTION_MARKER
        = false := by
      simpa using hmark 0 (Nat.succ_pos fuel)
    simp only [artifactLoopAux]
    rw [if_neg h0, if_neg (by simp [m0]), hok attempt]
    rcases ih (attempt + 1) (fixText attempt)
        (fun i hi => by
          have := hfail (i + 1) (by omega)
          simpa [Nat.add_assoc, Nat.add_comm 1 i] using this)
        (fun i hi => by
          have := hmark (i + 1) (by omega)
          simpa [Nat.add_assoc, Nat.add_comm 1 i] using this)
      with ⟨q1, q2, q3, q4, q5, q6, q7, q8⟩
    refine ⟨?_, ?_, by simpa using q3, by simpa using q4, by simpa using q5,
      by simpa using q6, by simpa using q7, ?_⟩
    · simp only [consecFrom, List.map_cons]
      simpa using q1
    · intro rec hrec
      rcases List.mem_cons.mp (by simpa using hrec) with h | h
      · simp [h]
      · exact q2 rec h
    · simp only
      rw [q8]
      cases fuel with
      | zero => simp
      | succ m =>
        have : attempt + 1 + (m + 1) - 1 = attempt + (m + 1 + 1) - 1 := by omega
        simp [this]

/-- Complete characterization of a run with `k` authoring failures (repaired
by successful completion calls) followed by a pass: `k` `test_issues` records
with consecutive attempt numbers, `k` regeneration calls and overwrites,
`k + 1` executions, a `Passed` outcome, and the `k`-th regeneration's text on
disk. -/
theorem run_fail_then_pass (execOut : Nat → ExecResult)
    (backend : Nat → RequestBody → BackendResponse) (path : String)
    (fixText : Nat → String)
    (hok : ∀ i req, call_azure_openai (backend i) req = .ok (fixText i)) :
    ∀ k fuel attempt content, k < fuel →
      (∀ i, i < k → (execOut (attempt + i)).returncode ≠ 0) →
      (∀ i, i < k →
        containsSubstr (execOut (attempt + i)).stderr ASSERTION_MARKER
          = false) →
      (execOut (attempt + k)).returncode = 0 →
      (artifactLoopAux execOut backend path attempt fuel
          content).test_issues.map FailureRecord.attempt =
        consecFrom (attempt + 1) k ∧
      (∀ rec ∈ (artifactLoopAux execOut backend path attempt fuel
          content).test_issues, rec.test_file = path) ∧
      (artifactLoopAux execOut backend path attempt fuel content).code_issues
        = [] ∧
      (artifactLoopAux execOut backend path attempt fuel content).calls.length
        = k ∧
      (artifactLoopAux execOut backend path attempt fuel
        content).overwrites.length = k ∧
      (artifactLoopAux execOut backend path attempt fuel content).executions
        = k + 1 ∧
      (artifactLoopAux execOut backend path attempt fuel content).outcome
        = .ok .Passed ∧
      (artifactLoopAux execOut backend path attempt fuel content).content
        = (if k = 0 then content else fixText (attempt + k - 1)) := by
  intro k
  induction k with
  | zero =>
    intro fuel attempt content hk _ _ hpass
    cases fuel with
    | zero => omega
    | succ m =>
      simp only [artifactLoopAux]
      rw [if_pos (by simpa using hpass)]
      simp [consecFrom]
  | succ k ih =>
    intro fuel attempt content hk hfail hmark hpass
    cases fuel with
    | zero => omega
    | succ m =>
      have h0 : (execOut attempt).returncode ≠ 0 := by
        simpa using hfail 0 (Nat.succ_pos k)
      have m0 : containsSubstr (execOut attempt).stderr ASSERTION_MARKER
          = false := by
        simpa using hmark 0 (Nat.succ_pos k)
      simp only [artifactLoopAux]
      rw [if_neg h0, if_neg (by simp [m0]), hok attempt]
      rcases ih m (attempt + 1) (fixText attempt) (by omega)
          (fun i hi => by
            have := hfail (i + 1) (by omega)
            simpa [Nat.add_assoc, Nat.add_comm 1 i] using this)
          (fun i hi => by
            have := hmark (i + 1) (by omega)
            simpa [Nat.add_assoc, Nat.add_comm 1 i] using this)
          (by
            have : attempt + 1 + k = attempt + (k + 1) := by omega
            rw [this]; exact hpass)
        with ⟨q1, q2, q3, q4, q5, q6, q7, q8⟩
      refine ⟨?_, ?_, by simpa using q3, by simpa using q4, by simpa using q5,
        by simpa using q6, by simpa using q7, ?_⟩
      · simp only [consecFrom, List.map_cons]
        simpa using q1
      · intro rec hrec
        rcases List.mem_cons.mp (by simpa using hrec) with h | h
        · simp [h]
        · exact q2 rec h
      · simp only
        rw [q8]
        cases k with
        | zero => simp
        | succ j =>
          have : attempt + 1 + (j + 1) - 1 = attempt + (j + 1 + 1) - 1 := by
            omega
          simp [this]

/-- Every regeneration request recorded in a run carries the parameters of
`repairRequest` at the corresponding 0-indexed attempt: `max_tokens = 700`,
`temperature = 0.4 + 0.1 * attempt`, and both penalties left at the `0.0`
defaults. -/
theorem calls_get (execOut : Nat → ExecResult)
    (backend : Nat → RequestBody → BackendResponse) (path : String) :
    ∀ fuel attempt content i p,
      (artifactLoopAux execOut backend path attempt fuel content).calls[i]?
        = some p →
      p.max_tokens = 700 ∧
      p.temperature = baseTemperature + (1/10) * ((attempt + i : Nat) : ℚ) ∧
      p.frequency_penalty = 0 ∧
      p.presence_penalty = 0 := by
  intro fuel
  induction fuel with
  | zero => intro attempt content i p h; simp [artifactLoopAux] at h
  | succ fuel ih =>
    intro attempt content i p
    simp only [artifactLoopAux]
    split
    · intro h; simp at h
    · split
      · intro h; simp at h
      · split
        · intro h
          simp only [List.getElem?_eq_some_iff] at h
          rcases h with ⟨hi, hp⟩
          have hi0 : i = 0 := by simp at hi; omega
          subst hi0
          simp only [List.getElem_cons_zero] at hp
          subst hp
          simp [repairRequest]
        · intro h
          cases i with
          | zero =>
            simp only [List.getElem?_cons_zero, Option.some.injEq] at h
            subst h
            simp [repairRequest]
          | succ i =>
            simp only [List.getElem?_cons_succ] at h
            have := ih (attempt + 1) _ i p h
            refine ⟨this.1, ?_, this.2.2.1, this.2.2.2⟩
            rw [this.2.1]
            have : attempt + 1 + i = attempt + (i + 1) := by omega
            rw [this]

/-- When the artifact fold aborts with a `ServiceError`, the in-memory ledger
at that point already holds at least one `test_issues` record. -/
theorem runArtifactsAux_error_nonempty (execOut : String → Nat → ExecResult)
    (backend : String → Nat → RequestBody → BackendResponse) :
    ∀ (artifacts : List Artifact) (log : FailureLog) (e : ServiceError),
      (runArtifactsAux execOut backend artifacts log).2 = some e →
      (runArtifactsAux execOut backend artifacts log).1.test_issues ≠ [] := by
  intro artifacts
  induction artifacts with
  | nil => intro log e h; simp [runArtifactsAux] at h
  | cons a rest ih =>
    intro log e
    simp only [runArtifactsAux]
    split
    · intro _
      have hne := run_error_nonempty (execOut a.path) (backend a.path) a.path
        MAX_ITERATIONS 0 a.content _ (by assumption)
      simp only
      intro hcontra
      exact hne (List.append_eq_nil.mp hcontra).2
    · intro h
      exact ih _ e h

/-! Claim theorems. -/

/-- C1 counterexample: in a run where every attempt fails as an authoring
issue, the third regeneration request (repair attempt 3) is sent with
temperature `0.4 + 0.2` as the claim states, but with frequency and presence
penalties `0.0`, not `0.2`: the call site never passes the penalties, so the
defaults of `call_azure_openai` apply. -/
theorem c1_counterexample :
    (runArtifact exAllFail bOk "test_a.py" "orig").calls[2]? =
      some (repairRequest 2 "boom" "fix1") ∧
    (repairRequest 2 "boom" "fix1").temperature = baseTemperature + 2/10 ∧
    (repairRequest 2 "boom" "fix1").frequency_penalty ≠ 2/10 ∧
    (repairRequest 2 "boom" "fix1").presence_penalty ≠ 2/10 := by
  refine ⟨rfl, ?_, ?_, ?_⟩ <;> norm_num [repairRequest, baseTemperature]

/-- C1 (amended): on repair attempt 3 of any repair cycle, the request passed
to the Completion Client has temperature equal to the base temperature plus
`0.2`, while the frequency and presence penalties each equal `0.0` (the
defaults, since the repair call never passes them). -/
theorem c1_attempt3_params (execOut : Nat → ExecResult)
    (backend : Nat → RequestBody → BackendResponse) (path content : String)
    (p : RequestBody)
    (h : (runArtifact execOut backend path content).calls[2]? = some p) :
    p.max_tokens = 700 ∧
    p.temperature = baseTemperature + 2/10 ∧
    p.frequency_penalty = 0 ∧
    p.presence_penalty = 0 := by
  have hc := calls_get execOut backend path MAX_ITERATIONS 0 content 2 p h
  refine ⟨hc.1, ?_, hc.2.2.1, hc.2.2.2⟩
  rw [hc.2.1]
  norm_num

/-- Witness for C1: the environment in which every attempt fails as an
authoring issue reaches repair attempt 3, and its request has the stated
parameters. -/
theorem c1_attempt3_params_witness :
    (repairRequest 2 "boom" "fix1").max_tokens = 700 ∧
    (repairRequest 2 "boom" "fix1").temperature = baseTemperature + 2/10 ∧
    (repairRequest 2 "boom" "fix1").frequency_penalty = 0 ∧
    (repairRequest 2 "boom" "fix1").presence_penalty = 0 :=
  c1_attempt3_params exAllFail bOk "test_a.py" "orig"
    (repairRequest 2 "boom" "fix1") rfl

/-- C2 counterexample: with every attempt an authoring failure, the run sends
three regeneration requests and performs three overwrites — i.e. on the final
attempt (attempt 3 = MAX_ITERATIONS) a regeneration request IS sent and the
artifact IS overwritten, contradicting the claim that neither occurs. -/
theorem c2_counterexample :
    (runArtifact exAllFail bOk "test_a.py" "orig").calls.length = 3 ∧
    (runArtifact exAllFail bOk "test_a.py" "orig").overwrites.length = 3 ∧
    (runArtifact exAllFail bOk "test_a.py" "orig").content = "fix2" ∧
    (runArtifact exAllFail bOk "test_a.py" "orig").executions = 3 :=
  ⟨rfl, rfl, rfl, rfl⟩

/-- C2 (amended): when an authoring (non-assertion) failure occurs on the
final attempt, a regeneration request is still sent to the Completion Client
and the artifact file is still overwritten with the returned text (which is
never executed, since the attempt budget is exhausted). -/
theorem c2_final_attempt_repair (execOut : Nat → ExecResult)
    (backend : Nat → RequestBody → BackendResponse) (path content : String)
    (fixText : Nat → String)
    (hok : ∀ i req, call_azure_openai (backend i) req = .ok (fixText i))
    (hfail : ∀ i, i < MAX_ITERATIONS → (execOut i).returncode ≠ 0)
    (hmark : ∀ i, i < MAX_ITERATIONS →
      containsSubstr (execOut i).stderr ASSERTION_MARKER = false) :
    (runArtifact execOut backend path content).calls.length
      = MAX_ITERATIONS ∧
    (runArtifact execOut backend path content).overwrites.length
      = MAX_ITERATIONS ∧
    (runArtifact execOut backend path content).content
      = fixText (MAX_ITERATIONS - 1) ∧
    (runArtifact execOut backend path content).executions
      = MAX_ITERATIONS := by
  have h := run_all_fail execOut backend path fixText hok MAX_ITERATIONS 0
    content (fun i hi => by simpa using hfail i hi)
    (fun i hi => by simpa using hmark i hi)
  exact ⟨h.2.2.2.1, h.2.2.2.2.1, by simpa [MAX_ITERATIONS] using h.2.2.2.2.2.2.2,
    h.2.2.2.2.2.1⟩

/-- Witness for C2: the all-fail environment exercises the final-attempt
repair. -/
theorem c2_final_attempt_repair_witness :
    (runArtifact exAllFail bOk "test_a.py" "orig").calls.length
      = MAX_ITERATIONS ∧
    (runArtifact exAllFail bOk "test_a.py" "orig").overwrites.length
      = MAX_ITERATIONS ∧
    (runArtifact exAllFail bOk "test_a.py" "orig").content
      = fixTextF (MAX_ITERATIONS - 1) ∧
    (runArtifact exAllFail bOk "test_a.py" "orig").executions
      = MAX_ITERATIONS :=
  c2_final_attempt_repair exAllFail bOk "test_a.py" "orig" fixTextF
    (fun _ _ => rfl) (fun _ _ => by simp [exAllFail]) (fun _ _ => rfl)

/-- C3: an artifact that never passes and never hits the assertion marker
gets exactly `MAX_ITERATIONS` `test_issues` records with attempt numbers 1
through `MAX_ITERATIONS`, all for its own path, no `code_issues` record, and
ends `Exhausted`. -/
theorem c3_exhausted_run (execOut : Nat → ExecResult)
    (backend : Nat → RequestBody → BackendResponse) (path content : String)
    (fixText : Nat → String)
    (hok : ∀ i req, call_azure_openai (backend i) req = .ok (fixText i))
    (hfail : ∀ i, i < MAX_ITERATIONS → (execOut i).returncode ≠ 0)
    (hmark : ∀ i, i < MAX_ITERATIONS →
      containsSubstr (execOut i).stderr ASSERTION_MARKER = false) :
    (runArtifact execOut backend path content).test_issues.map
      FailureRecord.attempt = [1, 2, 3] ∧
    (runArtifact execOut backend path content).test_issues.length
      = MAX_ITERATIONS ∧
    (∀ rec ∈ (runArtifact execOut backend path content).test_issues,
      rec.test_file = path) ∧
    (runArtifact execOut backend path content).code_issues = [] ∧
    (runArtifact execOut backend path content).outcome = .ok .Exhausted := by
  have h := run_all_fail execOut backend path fixText hok MAX_ITERATIONS 0
    content (fun i hi => by simpa using hfail i hi)
    (fun i hi => by simpa using hmark i hi)
  have hmap : (runArtifact execOut backend path content).test_issues.map
      FailureRecord.attempt = [1, 2, 3] := by
    rw [show (runArtifact execOut backend path content).test_issues.map
        FailureRecord.attempt = consecFrom (0 + 1) MAX_ITERATIONS from h.1]
    rfl
  refine ⟨hmap, ?_, h.2.1, h.2.2.1, h.2.2.2.2.2.2.1⟩
  have := congrArg List.length hmap
  simpa [MAX_ITERATIONS] using this

/-- Witness for C3: the all-fail environment. -/
theorem c3_exhausted_run_witness :
    (runArtifact exAllFail bOk "test_a.py" "orig").test_issues.map
      FailureRecord.attempt = [1, 2, 3] ∧
    (runArtifact exAllFail bOk "test_a.py" "orig").test_issues.length
      = MAX_ITERATIONS ∧
    (runArtifact exAllFail bOk "test_a.py" "orig").code_issues = [] ∧
    (runArtifact exAllFail bOk "test_a.py" "orig").outcome
      = .ok .Exhausted := by
  have h := c3_exhausted_run exAllFail bOk "test_a.py" "orig" fixTextF
    (fun _ _ => rfl) (fun _ _ => by simp [exAllFail]) (fun _ _ => rfl)
  exact ⟨h.1, h.2.1, h.2.2.2.1, h.2.2.2.2⟩

/-- C4: any artifact is executed at most `MAX_ITERATIONS` times; a
`code_issues` record is appended only at the artifact's final execution
(its attempt number equals the total number of executions performed), so no
further attempts occur after it; and at most one such record exists. -/
theorem c4_retry_budget (execOut : Nat → ExecResult)
    (backend : Nat → RequestBody → BackendResponse) (path content : String) :
    (runArtifact execOut backend path content).executions ≤ MAX_ITERATIONS ∧
    (runArtifact execOut backend path content).code_issues.length ≤ 1 ∧
    ∀ rec ∈ (runArtifact execOut backend path content).code_issues,
      rec.attempt = (runArtifact execOut backend path content).executions := by
  have h := run_bounds execOut backend path MAX_ITERATIONS 0 content
  exact ⟨h.1, h.2.1, fun rec hrec => by simpa using h.2.2 rec hrec⟩

/-- Witness for C4: an assertion failure on attempt 1 stops the artifact with
one execution, and the appended `code_issues` record carries attempt number
equal to that execution count. -/
theorem c4_retry_budget_witness :
    (runArtifact exAssertFirst bOk "test_a.py" "orig").executions
      ≤ MAX_ITERATIONS ∧
    ({ test_file := "test_a.py", error := "AssertionError: 5 != 6"
       attempt := 1 } : FailureRecord).attempt
      = (runArtifact exAssertFirst bOk "test_a.py" "orig").executions :=
  ⟨(c4_retry_budget exAssertFirst bOk "test_a.py" "orig").1,
   (c4_retry_budget exAssertFirst bOk "test_a.py" "orig").2.2 _ (by
      rw [show (runArtifact exAssertFirst bOk "test_a.py" "orig").code_issues
          = [{ test_file := "test_a.py", error := "AssertionError: 5 != 6"
               attempt := 1 }] from rfl]
      exact List.mem_cons_self _ _)⟩

/-- C5: the attempt numbers of the records appended for one artifact, in the
order they are appended (all of its `test_issues` records, then its
`code_issues` record if any), are strictly increasing and 1-indexed. -/
theorem c5_attempts_increasing (execOut : Nat → ExecResult)
    (backend : Nat → RequestBody → BackendResponse) (path content : String) :
    (((runArtifact execOut backend path content).test_issues ++
        (runArtifact execOut backend path content).code_issues).map
      FailureRecord.attempt).Pairwise (· < ·) ∧
    ∀ x ∈ ((runArtifact execOut backend path content).test_issues ++
        (runArtifact execOut backend path content).code_issues).map
      FailureRecord.attempt, 1 ≤ x := by
  rcases run_attempts execOut backend path MAX_ITERATIONS 0 content
    with ⟨n, hn⟩
  have e : ((runArtifact execOut backend path content).test_issues ++
      (runArtifact execOut backend path content).code_issues).map
        FailureRecord.attempt = consecFrom 1 n := hn
  rw [e]
  exact ⟨consecFrom_pairwise n 1, fun x hx => consecFrom_le n 1 hx⟩

/-- Witness for C5: in the exhausted run the appended attempt numbers are
`[1, 2, 3]`, which is strictly increasing and starts at 1. -/
theorem c5_attempts_increasing_witness :
    (((runArtifact exAllFail bOk "test_a.py" "orig").test_issues ++
        (runArtifact exAllFail bOk "test_a.py" "orig").code_issues).map
      FailureRecord.attempt).Pairwise (· < ·) ∧
    (1 : Nat) ≤ 1 :=
  ⟨(c5_attempts_increasing exAllFail bOk "test_a.py" "orig").1,
   (c5_attempts_increasing exAllFail bOk "test_a.py" "orig").2 1 (by
      rw [show ((runArtifact exAllFail bOk "test_a.py" "orig").test_issues ++
          (runArtifact exAllFail bOk "test_a.py" "orig").code_issues).map
            FailureRecord.attempt = [1, 2, 3] from rfl]
      exact List.mem_cons_self _ _)⟩

/-- C6: when the first execution fails with the assertion marker in its
stderr, exactly one `code_issues` record (attempt 1) is appended, no
regeneration call is made, nothing is overwritten, the content is untouched,
and the artifact ends in `CodeIssue` after that single execution. -/
theorem c6_assertion_first_attempt (execOut : Nat → ExecResult)
    (backend : Nat → RequestBody → BackendResponse) (path content : String)
    (hfail : (execOut 0).returncode ≠ 0)
    (hmark : containsSubstr (execOut 0).stderr ASSERTION_MARKER = true) :
    (runArtifact execOut backend path content).code_issues =
      [{ test_file := path, error := (execOut 0).stderr, attempt := 1 }] ∧
    (runArtifact execOut backend path content).test_issues = [] ∧
    (runArtifact execOut backend path content).calls = [] ∧
    (runArtifact execOut backend path content).overwrites = [] ∧
    (runArtifact execOut backend path content).content = content ∧
    (runArtifact execOut backend path content).executions = 1 ∧
    (runArtifact execOut backend path content).outcome = .ok .CodeIssue := by
  have e : runArtifact execOut backend path content
      = artifactLoopAux execOut backend path 0 (2 + 1) content := rfl
  rw [e]
  simp only [artifactLoopAux]
  rw [if_neg hfail, if_pos hmark]
  simp

/-- Witness for C6: a first execution whose stderr is
`AssertionError: 5 != 6`. -/
theorem c6_assertion_first_attempt_witness :
    (runArtifact exAssertFirst bOk "test_a.py" "orig").code_issues =
      [{ test_file := "test_a.py", error := "AssertionError: 5 != 6"
         attempt := 1 }] ∧
    (runArtifact exAssertFirst bOk "test_a.py" "orig").test_issues = [] ∧
    (runArtifact exAssertFirst bOk "test_a.py" "orig").calls = [] ∧
    (runArtifact exAssertFirst bOk "test_a.py" "orig").overwrites = [] ∧
    (runArtifact exAssertFirst bOk "test_a.py" "orig").content = "orig" ∧
    (runArtifact exAssertFirst bOk "test_a.py" "orig").executions = 1 ∧
    (runArtifact exAssertFirst bOk "test_a.py" "orig").outcome
      = .ok .CodeIssue :=
  c6_assertion_first_attempt exAssertFirst bOk "test_a.py" "orig"
    (by simp [exAssertFirst]) rfl

/-- C7: an artifact with `k` authoring-repair attempts (`1 ≤ k <
MAX_ITERATIONS`) that passes on attempt `k + 1` gets exactly `k` `test_issues`
records with attempt numbers `1..k`, no `code_issues` record, exactly `k`
regeneration calls, and its final content is the text returned by the `k`-th
regeneration call. -/
theorem c7_repair_then_pass (execOut : Nat → ExecResult)
    (backend : Nat → RequestBody → BackendResponse) (path content : String)
    (fixText : Nat → String) (k : Nat)
    (hok : ∀ i req, call_azure_openai (backend i) req = .ok (fixText i))
    (hk : k < MAX_ITERATIONS) (hk1 : 1 ≤ k)
    (hfail : ∀ i, i < k → (execOut i).returncode ≠ 0)
    (hmark : ∀ i, i < k →
      containsSubstr (execOut i).stderr ASSERTION_MARKER = false)
    (hpass : (execOut k).returncode = 0) :
    (runArtifact execOut backend path content).test_issues.map
      FailureRecord.attempt = consecFrom 1 k ∧
    (runArtifact execOut backend path content).test_issues.length = k ∧
    (runArtifact execOut backend path content).code_issues = [] ∧
    (runArtifact execOut backend path content).calls.length = k ∧
    (runArtifact execOut backend path content).content = fixText (k - 1) ∧
    (runArtifact execOut backend path content).outcome = .ok .Passed := by
  have h := run_fail_then_pass execOut backend path fixText hok k
    MAX_ITERATIONS 0 content hk
    (fun i hi => by simpa using hfail i hi)
    (fun i hi => by simpa using hmark i hi)
    (by simpa using hpass)
  have hmap : (runArtifact execOut backend path content).test_issues.map
      FailureRecord.attempt = consecFrom 1 k := by simpa using h.1
  refine ⟨hmap, ?_, h.2.2.1, h.2.2.2.1, ?_, h.2.2.2.2.2.2.1⟩
  · have := congrArg List.length hmap
    simpa [consecFrom_length] using this
  · have := h.2.2.2.2.2.2.2
    rw [if_neg (by omega)] at this
    simpa using this

/-- Witness for C7: one authoring failure then a pass on attempt 2; the final
content is the first regeneration's text. -/
theorem c7_repair_then_pass_witness :
    (runArtifact exFailOncePass bOk "test_a.py" "orig").test_issues.map
      FailureRecord.attempt = consecFrom 1 1 ∧
    (runArtifact exFailOncePass bOk "test_a.py" "orig").test_issues.length
      = 1 ∧
    (runArtifact exFailOncePass bOk "test_a.py" "orig").code_issues = [] ∧
    (runArtifact exFailOncePass bOk "test_a.py" "orig").calls.length = 1 ∧
    (runArtifact exFailOncePass bOk "test_a.py" "orig").content
      = fixTextF 0 ∧
    (runArtifact exFailOncePass bOk "test_a.py" "orig").outcome
      = .ok .Passed := by
  have h := c7_repair_then_pass exFailOncePass bOk "test_a.py" "orig"
    fixTextF 1 (fun _ _ => rfl) (by decide) (by decide)
    (fun i hi => by
      have : i = 0 := by omega
      subst this
      simp [exFailOncePass])
    (fun i hi => by
      have : i = 0 := by omega
      subst this
      rfl)
    rfl
  exact h

/-- C8: classification of a non-zero exit is a substring test on the captured
stderr: if it contains the assertion marker the record (with the stderr as its
error and the 1-indexed attempt number) goes to `code_issues` and no
`test_issues` record is appended for the artifact; any other non-zero exit
appends the record to `test_issues`. -/
theorem c8_classification (execOut : Nat → ExecResult)
    (backend : Nat → RequestBody → BackendResponse) (path content : String)
    (fuel attempt : Nat) (hfuel : fuel ≠ 0)
    (hfail : (execOut attempt).returncode ≠ 0) :
    (containsSubstr (execOut attempt).stderr ASSERTION_MARKER = true →
      (artifactLoopAux execOut backend path attempt fuel
        content).code_issues.head? =
          some { test_file := path, error := (execOut attempt).stderr,
                 attempt := attempt + 1 } ∧
      (artifactLoopAux execOut backend path attempt fuel content).test_issues
        = []) ∧
    (containsSubstr (execOut attempt).stderr ASSERTION_MARKER = false →
      (artifactLoopAux execOut backend path attempt fuel
        content).test_issues.head? =
          some { test_file := path, error := (execOut attempt).stderr,
                 attempt := attempt + 1 }) := by
  obtain ⟨m, rfl⟩ : ∃ m, fuel = m + 1 := ⟨fuel - 1, by omega⟩
  constructor
  · intro hm
    simp only [artifactLoopAux]
    rw [if_neg hfail, if_pos hm]
    simp
  · intro hm
    simp only [artifactLoopAux]
    rw [if_neg hfail, if_neg (by simp [hm])]
    split
    · simp
    · simp

/-- Witness for C8: an assertion-marker stderr goes to `code_issues`; a plain
error goes to `test_issues`. -/
theorem c8_classification_witness :
    ((runArtifact exAssertFirst bOk "test_a.py" "orig").code_issues.head?
        = some { test_file := "test_a.py", error := "AssertionError: 5 != 6"
                 attempt := 1 } ∧
      (runArtifact exAssertFirst bOk "test_a.py" "orig").test_issues = []) ∧
    (runArtifact exAllFail bOk "test_a.py" "orig").test_issues.head?
        = some { test_file := "test_a.py", error := "boom"
                 attempt := 1 } :=
  ⟨(c8_classification exAssertFirst bOk "test_a.py" "orig" MAX_ITERATIONS 0
      (by decide) (by simp [exAssertFirst])).1 rfl,
   (c8_classification exAllFail bOk "test_a.py" "orig" MAX_ITERATIONS 0
      (by decide) (by simp [exAllFail])).2 rfl⟩

/-- C9: one call to the Completion Client returns the generated text when the
backend answers with status 200, and otherwise fails with an error carrying
the status code and a message built from the status code and body; the
function issues a single backend request and has no retry logic. -/
theorem c9_completion_client (backend : RequestBody → BackendResponse)
    (data : RequestBody) :
    ((backend data).status_code = 200 →
      call_azure_openai backend data = .ok (backend data).message_content) ∧
    ((backend data).status_code ≠ 200 →
      call_azure_openai backend data = .error
        { status_code := (backend data).status_code
          message := apiFailMessage (backend data) }) := by
  constructor
  · intro h
    simp [call_azure_openai, h]
  · intro h
    simp [call_azure_openai, h]

/-- Witness for C9: a 200 response yields its content; a 500 response yields
the error with its status code and formatted message. -/
theorem c9_completion_client_witness :
    call_azure_openai (bOk 0) (repairRequest 0 "boom" "orig")
      = .ok "fix0" ∧
    call_azure_openai (bBad 0) (repairRequest 0 "boom" "orig")
      = .error { status_code := 500
                 message := "Azure OpenAI API call failed: 500 - oops" } :=
  ⟨(c9_completion_client (bOk 0) (repairRequest 0 "boom" "orig")).1 rfl,
   (c9_completion_client (bBad 0) (repairRequest 0 "boom" "orig")).2
     (by decide)⟩

/-- C10: if the artifact fold aborts because a completion call raised, then
`validate_and_log_tests` never reaches its final `json.dump`: no ledger file
is written, the error propagates, and yet the in-memory ledger already holds
at least one record — persistence is all-or-nothing at normal completion. -/
theorem c10_ledger_not_written (execOut : String → Nat → ExecResult)
    (backend : String → Nat → RequestBody → BackendResponse)
    (artifacts : List Artifact) (e : ServiceError)
    (h : (runArtifactsAux execOut backend artifacts ⟨[], []⟩).2 = some e) :
    (validate_and_log_tests execOut backend artifacts).ledger_file = none ∧
    (validate_and_log_tests execOut backend artifacts).err = some e ∧
    (validate_and_log_tests execOut backend
      artifacts).failure_log.test_issues ≠ [] := by
  have hne := runArtifactsAux_error_nonempty execOut backend artifacts
    ⟨[], []⟩ e h
  simp only [validate_and_log_tests]
  rw [h]
  exact ⟨rfl, rfl, hne⟩

/-- Witness for C10: one artifact whose first repair call gets a 500 response;
the run aborts and the ledger file is never written. -/
theorem c10_ledger_not_written_witness :
    (validate_and_log_tests (fun _ => exAllFail) (fun _ => bBad)
      [{ path := "test_a.py", content := "orig" }]).ledger_file = none ∧
    (validate_and_log_tests (fun _ => exAllFail) (fun _ => bBad)
      [{ path := "test_a.py", content := "orig" }]).err = some
        { status_code := 500
          message := "Azure OpenAI API call failed: 500 - oops" } :=
  ⟨(c10_ledger_not_written (fun _ => exAllFail) (fun _ => bBad)
      [{ path := "test_a.py", content := "orig" }]
      { status_code := 500
        message := "Azure OpenAI API call failed: 500 - oops" } rfl).1,
   (c10_ledger_not_written (fun _ => exAllFail) (fun _ => bBad)
      [{ path := "test_a.py", content := "orig" }]
      { status_code := 500
        message := "Azure OpenAI API call failed: 500 - oops" } rfl).2.1⟩

end GenUnittest

